import Mathlib

/-!
Verification of the photo-upload orchestration service
(`notion_backend_service.py`) against its specification.

The service is a single HTTP handler (`upload_photo`) that performs four
sequential calls to the Notion API: create a page, create a file-upload
slot, send the binary, and attach the uploaded file to the page.  We embed
the handler shallowly: the four upstream responses are passed in as data,
and the handler returns its outcome together with the list of upstream
calls it issued, in order.
-/

/-- A JSON value, as produced by Python dict/list/str/int/None literals
and by `response.json()`. -/
inductive Json where
  | null
  | bool (b : Bool)
  | num (n : Int)
  | str (s : String)
  | arr (elems : List Json)
  | obj (fields : List (String × Json))
deriving Repr

/-- Key lookup on a JSON object value, used on the statement side to
observe the payloads this file constructs and to phrase hypotheses about
response bodies (a `some` result forces the value to be an object).  The
source's own dict accesses are modelled by `Json.pyGet` and
`Json.subscript` below, which keep Python's error paths. -/
def Json.getKey? : Json → String → Option Json
  | .obj fields, k => fields.lookup k
  | _, _ => none

/-- Python f-string interpolation of a JSON scalar, as in
`f"https://api.notion.com/v1/blocks/{page_id}/children"`.  The service
only ever interpolates the value found under "id" in a response body;
composite values never reach this point in any property we state, so the
`arr`/`obj` cases carry a fixed marker. -/
def pythonStr : Json → String
  | .null => "None"
  | .bool true => "True"
  | .bool false => "False"
  | .num n => toString n
  | .str s => s
  | .arr _ => "<list>"
  | .obj _ => "<dict>"

/-- The environment-derived configuration after a successful startup:
`NOTION_TOKEN`, `NOTION_DATABASE_ID` and `NOTION_VERSION`. -/
structure Config where
  token : String
  databaseId : String
  version : String
deriving Repr, DecidableEq

/-- Python truthiness test `not s` for an optional string environment
variable: true when the variable is unset or the empty string. -/
def strFalsy : Option String → Bool
  | none => true
  | some s => s = ""

/-- Module-level startup (lines 70-86 of the source): read the three
environment variables, fail with `RuntimeError` when `NOTION_TOKEN` or
`NOTION_DATABASE_ID` is falsy, default `NOTION_VERSION` to
`2022-06-28`. -/
def startup (token databaseId version : Option String) : Except String Config :=
  let notionVersion := version.getD "2022-06-28"
  if strFalsy token then
    Except.error "NOTION_TOKEN environment variable must be set."
  else if strFalsy databaseId then
    Except.error "NOTION_DATABASE_ID environment variable must be set."
  else
    Except.ok ⟨token.getD "", databaseId.getD "", notionVersion⟩

/-- `notion_headers` (lines 89-101): always the Authorization and
Notion-Version headers, plus whatever the caller adds (only ever a
Content-Type entry, so dict update is list append here). -/
def notion_headers (cfg : Config) (additional : List (String × String)) :
    List (String × String) :=
  [("Authorization", "Bearer " ++ cfg.token),
   ("Notion-Version", cfg.version)] ++ additional

/-- The uploaded file part: FastAPI `UploadFile`.  `filename` and
`content_type` are optional in FastAPI; `content` is the full byte
string returned by `file.read()`. -/
structure FileInput where
  filename : Option String
  content_type : Option String
  content : List Nat
deriving Repr, DecidableEq

/-- The handler's parameters after FastAPI form coercion
(lines 105-114): the file plus the six metadata fields, with the
optional `context` and `emotion` already defaulted. -/
structure UploadRequest where
  file : FileInput
  name : String
  date : String
  context : String
  hunger : Int
  energy : Int
  emotion : String
deriving Repr, DecidableEq

/-- The raw multipart form as the client sent it: every part may be
absent. -/
structure RawForm where
  file : Option FileInput
  name : Option String
  date : Option String
  context : Option String
  hunger : Option Int
  energy : Option Int
  emotion : Option String
deriving Repr, DecidableEq

/-- FastAPI's coercion of the form into the handler parameters, as
declared by the signature at lines 105-114: `file`, `name`, `date`,
`hunger` and `energy` are required (`File(...)` / `Form(...)`, missing
ones are rejected with a 422 before the handler body runs), while
`context` and `emotion` default to the empty string (`Form("")`). -/
def parse_upload_form (raw : RawForm) : Except Nat UploadRequest :=
  match raw.file, raw.name, raw.date, raw.hunger, raw.energy with
  | some f, some n, some d, some h, some e =>
      Except.ok ⟨f, n, d, raw.context.getD "", h, e, raw.emotion.getD ""⟩
  | _, _, _, _, _ => Except.error 422

/-- One upstream HTTP response as seen through the `requests` library:
the status code, the raw text body (`.text`) and its parsed form
(`.json()`). -/
structure HttpResponse where
  status_code : Nat
  text : String
  json : Json
deriving Repr

/-- The four upstream responses the external service would give to this
request's four calls, in stage order. -/
structure UpstreamResponses where
  page : HttpResponse
  uploadMeta : HttpResponse
  send : HttpResponse
  attach : HttpResponse
deriving Repr

/-- A non-2xx check, as written in the source: `status_code // 100 != 2`. -/
def is2xx (r : HttpResponse) : Bool := r.status_code / 100 = 2

/-- One outgoing HTTP call issued by the handler, with everything the
source passes to `requests`: method, URL, headers, optional JSON body,
optional multipart file part (the `files={"file": (...)}` triple), and
the timeout in seconds. -/
structure HttpCall where
  method : String
  url : String
  headers : List (String × String)
  body : Option Json
  filePart : Option (Option String × List Nat × String)
  timeout : Nat
deriving Repr

/-- How the handler can terminate abnormally: a FastAPI `HTTPException`
carrying an HTTP status and a detail string, or one of the unhandled
Python exceptions an unguarded body access raises — `KeyError` for a
missing key under a dict subscript, `AttributeError` for `.get` on a
non-dict (line 183), `TypeError` for a subscript on a non-dict
(lines 204-205). -/
inductive Failure where
  | http (status_code : Nat) (detail : String)
  | keyError (key : String)
  | attributeError (attr : String)
  | typeError
deriving Repr, DecidableEq

/-- Python `d.get(k)` as used at line 183: on a dict, the value under
`k`, or None when the key is absent; on any non-dict JSON value, an
`AttributeError` (the parsed body has no `get` attribute). -/
def Json.pyGet : Json → String → Except Failure Json
  | .obj fields, k => Except.ok ((fields.lookup k).getD Json.null)
  | _, _ => Except.error (Failure.attributeError "get")

/-- Python `d[k]` as used at lines 204-205: on a dict, the value under
`k`, or a `KeyError` when the key is absent; on any non-dict JSON value,
a `TypeError`. -/
def Json.subscript : Json → String → Except Failure Json
  | .obj fields, k =>
      match fields.lookup k with
      | some v => Except.ok v
      | none => Except.error (Failure.keyError k)
  | _, _ => Except.error Failure.typeError

/-- Python `s or dflt` for an optional string (lines 190 and 215): the
default when the value is None or the empty string — Python truthiness,
not mere presence — and the value itself otherwise. -/
def pyOrStr (s : Option String) (dflt : String) : String :=
  match s with
  | some v => if v = "" then dflt else v
  | none => dflt

/-- `create_payload` (lines 129-171): the page-creation body, mapping
the six metadata fields into Notion's typed property schema. -/
def create_payload (cfg : Config) (req : UploadRequest) : Json :=
  Json.obj [
    ("parent", Json.obj [("database_id", Json.str cfg.databaseId)]),
    ("properties", Json.obj [
      ("Name", Json.obj [("title", Json.arr [
        Json.obj [("text", Json.obj [("content", Json.str req.name)])]])]),
      ("Date", Json.obj [("date", Json.obj [("start", Json.str req.date)])]),
      ("Context", Json.obj [("rich_text", Json.arr [
        Json.obj [("text", Json.obj [("content", Json.str req.context)])]])]),
      ("Hunger_level", Json.obj [("number", Json.num req.hunger)]),
      ("Energy_level", Json.obj [("number", Json.num req.energy)]),
      ("Emotional_state", Json.obj [("rich_text", Json.arr [
        Json.obj [("text", Json.obj [("content", Json.str req.emotion)])]])])
    ])
  ]

/-- Optional string as a JSON value (Python `None` serialises to null). -/
def jsonOfOptStr : Option String → Json
  | some s => Json.str s
  | none => Json.null

/-- `upload_meta_payload` (lines 188-191): filename and media type for
the file-upload slot, defaulting the media type to
`application/octet-stream`. -/
def upload_meta_payload (req : UploadRequest) : Json :=
  Json.obj [
    ("file_name", jsonOfOptStr req.file.filename),
    ("content_type", Json.str (pyOrStr req.file.content_type "application/octet-stream"))
  ]

/-- The stage-1 call (lines 172-177): POST the page-creation payload. -/
def page_call (cfg : Config) (req : UploadRequest) : HttpCall :=
  { method := "POST"
    url := "https://api.notion.com/v1/pages"
    headers := notion_headers cfg [("Content-Type", "application/json")]
    body := some (create_payload cfg req)
    filePart := none
    timeout := 15 }

/-- The stage-2 call (lines 192-197): POST the upload-slot payload. -/
def upload_meta_call (cfg : Config) (req : UploadRequest) : HttpCall :=
  { method := "POST"
    url := "https://api.notion.com/v1/file_uploads"
    headers := notion_headers cfg [("Content-Type", "application/json")]
    body := some (upload_meta_payload req)
    filePart := none
    timeout := 15 }

/-- The stage-3 call (lines 210-218): POST the photo bytes as a
multipart body to the slot's upload URL, with only the base headers. -/
def send_call (cfg : Config) (req : UploadRequest) (upload_url : Json) : HttpCall :=
  { method := "POST"
    url := pythonStr upload_url
    headers := notion_headers cfg []
    body := none
    filePart := some (req.file.filename, req.file.content,
                      pyOrStr req.file.content_type "application/octet-stream")
    timeout := 30 }

/-- `attach_payload` (lines 229-242): one image block referencing the
upload slot. -/
def attach_payload (file_upload_id : Json) : Json :=
  Json.obj [
    ("children", Json.arr [
      Json.obj [
        ("object", Json.str "block"),
        ("type", Json.str "image"),
        ("image", Json.obj [
          ("type", Json.str "file_upload"),
          ("file_upload", Json.obj [("id", file_upload_id)])
        ])
      ]
    ])
  ]

/-- The stage-4 call (lines 243-248): PATCH the attach payload to the
page's children resource. -/
def attach_call (cfg : Config) (page_id file_upload_id : Json) : HttpCall :=
  { method := "PATCH"
    url := "https://api.notion.com/v1/blocks/" ++ pythonStr page_id ++ "/children"
    headers := notion_headers cfg [("Content-Type", "application/json")]
    body := some (attach_payload file_upload_id)
    filePart := none
    timeout := 15 }

/-- The handler body `upload_photo` (lines 104-273), embedded over given
upstream responses.  Returns the outcome — success body, HTTPException,
or the unhandled Python exception of a failed body access (line 183's
`.get` on a non-dict, lines 204-205's subscripts) — together with the
list of upstream calls issued, in order. -/
def upload_photo (cfg : Config) (req : UploadRequest) (r : UpstreamResponses) :
    Except Failure Json × List HttpCall :=
  let c1 := page_call cfg req
  if ¬ is2xx r.page then
    (Except.error (Failure.http r.page.status_code
      ("Failed to create Notion page: " ++ r.page.text)), [c1])
  else
    match r.page.json.pyGet "id" with
    | Except.error f => (Except.error f, [c1])
    | Except.ok page_id =>
      let c2 := upload_meta_call cfg req
      if ¬ is2xx r.uploadMeta then
        (Except.error (Failure.http r.uploadMeta.status_code
          ("Failed to create file upload object: " ++ r.uploadMeta.text)), [c1, c2])
      else
        match r.uploadMeta.json.subscript "id" with
        | Except.error f => (Except.error f, [c1, c2])
        | Except.ok file_upload_id =>
          match r.uploadMeta.json.subscript "upload_url" with
          | Except.error f => (Except.error f, [c1, c2])
          | Except.ok upload_url =>
            let c3 := send_call cfg req upload_url
            if ¬ is2xx r.send then
              (Except.error (Failure.http r.send.status_code
                ("Failed to upload file contents: " ++ r.send.text)), [c1, c2, c3])
            else
              let c4 := attach_call cfg page_id file_upload_id
              if ¬ is2xx r.attach then
                (Except.error (Failure.http r.attach.status_code
                  ("Failed to attach file to page: " ++ r.attach.text)), [c1, c2, c3, c4])
              else
                (Except.ok (Json.obj [("page_id", page_id)]), [c1, c2, c3, c4])

/-- True exactly when a JSON value is a non-empty string. -/
def Json.isNonEmptyStr : Json → Bool
  | .str s => s ≠ ""
  | _ => false

/-- Projection of the error detail string out of the handler outcome. -/
def errDetail? : Except Failure Json → Option String
  | .error (.http _ d) => some d
  | _ => none

/-! Concrete fixtures used by witnesses and counterexamples. -/

/-- A sample configuration. -/
def cfgEx : Config := ⟨"tok", "db1", "2022-06-28"⟩

/-- A sample JPEG file part with a declared media type. -/
def fileEx : FileInput := ⟨some "photo.jpg", some "image/jpeg", [255, 216, 255]⟩

/-- The spec's concrete scenario request. -/
def reqEx : UploadRequest := ⟨fileEx, "Lunch", "2024-05-01", "", 3, 7, "content"⟩

/-- The same file part without a declared media type. -/
def fileNoCt : FileInput := ⟨some "photo.jpg", none, [255, 216, 255]⟩

/-- The sample request with no declared media type on the binary. -/
def reqNoCt : UploadRequest := ⟨fileNoCt, "Lunch", "2024-05-01", "", 3, 7, "content"⟩

/-- The same file part with a declared-but-empty media type, as a
crafted multipart request can produce. -/
def fileEmptyCt : FileInput := ⟨some "photo.jpg", some "", [255, 216, 255]⟩

/-- The sample request whose binary declares an empty media type. -/
def reqEmptyCt : UploadRequest := ⟨fileEmptyCt, "Lunch", "2024-05-01", "", 3, 7, "content"⟩

/-- The request that FastAPI coercion produces from `rawEx`: both
optional fields defaulted to the empty string. -/
def reqDefaulted : UploadRequest := ⟨fileEx, "Lunch", "2024-05-01", "", 3, 7, ""⟩

/-- A successful page-creation response carrying a page id. -/
def pageOk : HttpResponse := ⟨200, "", Json.obj [("id", Json.str "page-1")]⟩

/-- A successful upload-slot response carrying slot id and upload URL. -/
def metaOk : HttpResponse :=
  ⟨200, "", Json.obj [("id", Json.str "fu-1"),
    ("upload_url", Json.str "https://api.notion.com/v1/file_uploads/fu-1/send")]⟩

/-- A successful binary-send response. -/
def sendOk : HttpResponse := ⟨200, "ok", Json.null⟩

/-- A successful attach response. -/
def attachOk : HttpResponse := ⟨200, "ok", Json.null⟩

/-- All four calls succeed with well-formed bodies. -/
def respsOk : UpstreamResponses := ⟨pageOk, metaOk, sendOk, attachOk⟩

/-- A 2xx page-creation response whose body has no "id" key. -/
def pageNoId : HttpResponse := ⟨200, "", Json.obj []⟩

/-- All four calls succeed but the page body lacks "id". -/
def respsNoId : UpstreamResponses := ⟨pageNoId, metaOk, sendOk, attachOk⟩

/-- The spec's concrete failure: page creation rejected with 401. -/
def resp401 : HttpResponse :=
  ⟨401, "unauthorized-body", Json.obj [("message", Json.str "unauthorized")]⟩

/-- Page creation fails with 401; later stages would have succeeded. -/
def resps401 : UpstreamResponses := ⟨resp401, metaOk, sendOk, attachOk⟩

/-- The binary send fails with 500 after two successful stages. -/
def respsSendFail : UpstreamResponses := ⟨pageOk, metaOk, ⟨500, "boom", Json.null⟩, attachOk⟩

/-- A 2xx upload-slot response whose body lacks the "id" key. -/
def metaNoId : HttpResponse := ⟨200, "", Json.obj [("upload_url", Json.str "u")]⟩

/-- Responses where the slot body lacks "id". -/
def respsMetaNoId : UpstreamResponses := ⟨pageOk, metaNoId, sendOk, attachOk⟩

/-- The spec's concrete scenario as a raw form with `context` and
`emotion` omitted. -/
def rawEx : RawForm :=
  ⟨some fileEx, some "Lunch", some "2024-05-01", none, some 3, some 7, none⟩

/-! Helper lemmas shared between claims. -/

/-- The page-creation call is always the first call issued, in every
branch of the handler. -/
theorem upload_photo_first_call (cfg : Config) (req : UploadRequest)
    (r : UpstreamResponses) :
    (upload_photo cfg req r).2.head? = some (page_call cfg req) := by
  unfold upload_photo
  dsimp only
  repeat' (first | rfl | split)

/-- A successful `getKey?` observation forces the value to be an object,
so Python's `.get` succeeds there with the same value. -/
theorem Json.pyGet_of_getKey (j : Json) (k : String) (v : Json)
    (h : j.getKey? k = some v) : j.pyGet k = Except.ok v := by
  cases j <;> simp [Json.getKey?] at h <;> simp [Json.pyGet, h]

/-- A successful `getKey?` observation forces the value to be an object,
so the Python subscript succeeds there with the same value. -/
theorem Json.subscript_of_getKey (j : Json) (k : String) (v : Json)
    (h : j.getKey? k = some v) : j.subscript k = Except.ok v := by
  cases j <;> simp [Json.getKey?] at h <;> simp [Json.subscript, h]

/-! Claim theorems. -/

/-- Claim C1, counterexample to the claim as stated: a valid request on
which all four upstream calls return 2xx, yet the page-creation body has
no "id" key, so the single field of the returned object is null — not a
non-empty string. -/
theorem C1_counterexample :
    (is2xx pageNoId && is2xx metaOk && is2xx sendOk && is2xx attachOk) = true ∧
    (upload_photo cfgEx reqEx respsNoId).1 =
      Except.ok (Json.obj [("page_id", Json.null)]) ∧
    Json.isNonEmptyStr Json.null = false :=
  ⟨rfl, rfl, rfl⟩

/-- Claim C1 (amended): for every valid request on which all four
upstream calls succeed, the slot body carries its two keys, and the
page-creation response body maps "id" to a non-empty string, the handler
returns a JSON object containing exactly one field — the
record-identifier field, `page_id` — whose value is that non-empty
string. -/
theorem C1_success_shape (cfg : Config) (req : UploadRequest)
    (r : UpstreamResponses) (id : String) (fid upl : Json)
    (h1 : is2xx r.page = true) (h2 : is2xx r.uploadMeta = true)
    (h3 : is2xx r.send = true) (h4 : is2xx r.attach = true)
    (hid : r.page.json.getKey? "id" = some (Json.str id)) (hne : id ≠ "")
    (hfid : r.uploadMeta.json.getKey? "id" = some fid)
    (hurl : r.uploadMeta.json.getKey? "upload_url" = some upl) :
    (upload_photo cfg req r).1 = Except.ok (Json.obj [("page_id", Json.str id)]) ∧
    Json.isNonEmptyStr (Json.str id) = true := by
  have hpid := Json.pyGet_of_getKey _ _ _ hid
  have hfid2 := Json.subscript_of_getKey _ _ _ hfid
  have hurl2 := Json.subscript_of_getKey _ _ _ hurl
  constructor
  · simp [upload_photo, h1, h2, h3, h4, hpid, hfid2, hurl2]
  · simp [Json.isNonEmptyStr, hne]

/-- Claim C1 witness: the amended theorem applied to the spec's concrete
success scenario. -/
theorem C1_witness :
    (upload_photo cfgEx reqEx respsOk).1 =
      Except.ok (Json.obj [("page_id", Json.str "page-1")]) ∧
    Json.isNonEmptyStr (Json.str "page-1") = true :=
  C1_success_shape cfgEx reqEx respsOk "page-1" (Json.str "fu-1")
    (Json.str "https://api.notion.com/v1/file_uploads/fu-1/send")
    rfl rfl rfl rfl rfl (by decide) rfl rfl

/-- Claim C2: for every request, when the upstream call of some stage
returns a non-2xx status — earlier stages having succeeded and their
body accesses too, which is what it takes for that stage's call to be
issued at all — the handler issues exactly the calls up to and including
that stage, none of the later ones, and raises an error whose status
code equals that upstream status. -/
theorem C2_linear_abort (cfg : Config) (req : UploadRequest)
    (r : UpstreamResponses) :
    (is2xx r.page = false →
      upload_photo cfg req r =
        (Except.error (Failure.http r.page.status_code
          ("Failed to create Notion page: " ++ r.page.text)),
         [page_call cfg req])) ∧
    (∀ pid : Json, is2xx r.page = true →
      r.page.json.pyGet "id" = Except.ok pid →
      is2xx r.uploadMeta = false →
      upload_photo cfg req r =
        (Except.error (Failure.http r.uploadMeta.status_code
          ("Failed to create file upload object: " ++ r.uploadMeta.text)),
         [page_call cfg req, upload_meta_call cfg req])) ∧
    (∀ pid fid upl : Json, is2xx r.page = true →
      r.page.json.pyGet "id" = Except.ok pid →
      is2xx r.uploadMeta = true →
      r.uploadMeta.json.subscript "id" = Except.ok fid →
      r.uploadMeta.json.subscript "upload_url" = Except.ok upl →
      is2xx r.send = false →
      upload_photo cfg req r =
        (Except.error (Failure.http r.send.status_code
          ("Failed to upload file contents: " ++ r.send.text)),
         [page_call cfg req, upload_meta_call cfg req, send_call cfg req upl])) ∧
    (∀ pid fid upl : Json, is2xx r.page = true →
      r.page.json.pyGet "id" = Except.ok pid →
      is2xx r.uploadMeta = true →
      r.uploadMeta.json.subscript "id" = Except.ok fid →
      r.uploadMeta.json.subscript "upload_url" = Except.ok upl →
      is2xx r.send = true → is2xx r.attach = false →
      upload_photo cfg req r =
        (Except.error (Failure.http r.attach.status_code
          ("Failed to attach file to page: " ++ r.attach.text)),
         [page_call cfg req, upload_meta_call cfg req, send_call cfg req upl,
          attach_call cfg pid fid])) := by
  refine ⟨fun h1 => ?_, fun pid h1 hpid h2 => ?_,
          fun pid fid upl h1 hpid h2 hfid hurl h3 => ?_,
          fun pid fid upl h1 hpid h2 hfid hurl h3 h4 => ?_⟩
  · simp [upload_photo, h1]
  · simp [upload_photo, h1, hpid, h2]
  · simp [upload_photo, h1, hpid, h2, hfid, hurl, h3]
  · simp [upload_photo, h1, hpid, h2, hfid, hurl, h3, h4]

/-- Claim C2 witness: the spec's concrete failure scenario — page
creation rejected with 401 — aborts after the single page call with a
401 error. -/
theorem C2_witness :
    upload_photo cfgEx reqEx resps401 =
      (Except.error (Failure.http 401
        ("Failed to create Notion page: " ++ "unauthorized-body")),
       [page_call cfgEx reqEx]) :=
  (C2_linear_abort cfgEx reqEx resps401).1 rfl

/-- Claim C3: whenever an upstream call is issued and fails with a
non-2xx status, the error detail is a stage-naming description followed
by the upstream response body verbatim, with no translation: the detail
is literally that description concatenated with the raw upstream
text. -/
theorem C3_error_detail (cfg : Config) (req : UploadRequest)
    (r : UpstreamResponses) :
    (is2xx r.page = false →
      errDetail? (upload_photo cfg req r).1 =
        some ("Failed to create Notion page: " ++ r.page.text)) ∧
    (∀ pid : Json, is2xx r.page = true →
      r.page.json.pyGet "id" = Except.ok pid →
      is2xx r.uploadMeta = false →
      errDetail? (upload_photo cfg req r).1 =
        some ("Failed to create file upload object: " ++ r.uploadMeta.text)) ∧
    (∀ pid fid upl : Json, is2xx r.page = true →
      r.page.json.pyGet "id" = Except.ok pid →
      is2xx r.uploadMeta = true →
      r.uploadMeta.json.subscript "id" = Except.ok fid →
      r.uploadMeta.json.subscript "upload_url" = Except.ok upl →
      is2xx r.send = false →
      errDetail? (upload_photo cfg req r).1 =
        some ("Failed to upload file contents: " ++ r.send.text)) ∧
    (∀ pid fid upl : Json, is2xx r.page = true →
      r.page.json.pyGet "id" = Except.ok pid →
      is2xx r.uploadMeta = true →
      r.uploadMeta.json.subscript "id" = Except.ok fid →
      r.uploadMeta.json.subscript "upload_url" = Except.ok upl →
      is2xx r.send = true → is2xx r.attach = false →
      errDetail? (upload_photo cfg req r).1 =
        some ("Failed to attach file to page: " ++ r.attach.text)) := by
  refine ⟨fun h1 => ?_, fun pid h1 hpid h2 => ?_,
          fun pid fid upl h1 hpid h2 hfid hurl h3 => ?_,
          fun pid fid upl h1 hpid h2 hfid hurl h3 h4 => ?_⟩
  · simp [upload_photo, h1, errDetail?]
  · simp [upload_photo, h1, hpid, h2, errDetail?]
  · simp [upload_photo, h1, hpid, h2, hfid, hurl, h3, errDetail?]
  · simp [upload_photo, h1, hpid, h2, hfid, hurl, h3, h4, errDetail?]

/-- Claim C3 witness: a binary-send failure with body "boom" yields the
stage-naming detail carrying "boom" verbatim. -/
theorem C3_witness :
    errDetail? (upload_photo cfgEx reqEx respsSendFail).1 =
      some ("Failed to upload file contents: " ++ "boom") :=
  (C3_error_detail cfgEx reqEx respsSendFail).2.2.1
    (Json.str "page-1") (Json.str "fu-1")
    (Json.str "https://api.notion.com/v1/file_uploads/fu-1/send")
    rfl rfl rfl rfl rfl rfl

/-- Shared helper: once the page call succeeded with a readable body and
the slot call succeeded with both keys present, the second and third
issued calls are the slot call and the binary-send call to the slot's
URL, whatever the later stages return. -/
theorem upload_photo_trace_three (cfg : Config) (req : UploadRequest)
    (r : UpstreamResponses) (pid fid upl : Json)
    (h1 : is2xx r.page = true)
    (hpid : r.page.json.pyGet "id" = Except.ok pid)
    (h2 : is2xx r.uploadMeta = true)
    (hfid : r.uploadMeta.json.subscript "id" = Except.ok fid)
    (hurl : r.uploadMeta.json.subscript "upload_url" = Except.ok upl) :
    (upload_photo cfg req r).2[1]? = some (upload_meta_call cfg req) ∧
    (upload_photo cfg req r).2[2]? = some (send_call cfg req upl) := by
  by_cases h3 : is2xx r.send = true
  · by_cases h4 : is2xx r.attach = true
    · simp [upload_photo, h1, hpid, h2, hfid, hurl, h3, h4]
    · simp [upload_photo, h1, hpid, h2, hfid, hurl, h3, h4]
  · simp [upload_photo, h1, hpid, h2, hfid, hurl, h3]

/-- Claim C4: the record-creation payload — the body of the first
issued call — maps the six metadata fields 1:1 into the typed property
schema: Name as a title property, Date as a date property, Context and
Emotional_state as rich-text properties, Hunger_level and Energy_level
as number properties, each carrying the request's value unchanged. -/
theorem C4_payload_mapping (cfg : Config) (req : UploadRequest)
    (r : UpstreamResponses) :
    ((upload_photo cfg req r).2.head?.map HttpCall.body) =
      some (some (create_payload cfg req)) ∧
    ((create_payload cfg req).getKey? "properties").bind
        (Json.getKey? · "Name") =
      some (Json.obj [("title", Json.arr [
        Json.obj [("text", Json.obj [("content", Json.str req.name)])]])]) ∧
    ((create_payload cfg req).getKey? "properties").bind
        (Json.getKey? · "Date") =
      some (Json.obj [("date", Json.obj [("start", Json.str req.date)])]) ∧
    ((create_payload cfg req).getKey? "properties").bind
        (Json.getKey? · "Context") =
      some (Json.obj [("rich_text", Json.arr [
        Json.obj [("text", Json.obj [("content", Json.str req.context)])]])]) ∧
    ((create_payload cfg req).getKey? "properties").bind
        (Json.getKey? · "Emotional_state") =
      some (Json.obj [("rich_text", Json.arr [
        Json.obj [("text", Json.obj [("content", Json.str req.emotion)])]])]) ∧
    ((create_payload cfg req).getKey? "properties").bind
        (Json.getKey? · "Hunger_level") =
      some (Json.obj [("number", Json.num req.hunger)]) ∧
    ((create_payload cfg req).getKey? "properties").bind
        (Json.getKey? · "Energy_level") =
      some (Json.obj [("number", Json.num req.energy)]) := by
  refine ⟨?_, rfl, rfl, rfl, rfl, rfl, rfl⟩
  rw [upload_photo_first_call]
  rfl

/-- Claim C5: when the optional form fields `context` and `emotion` are
omitted, the coerced request carries them as empty strings, so the
record-creation payload contains both rich-text properties with empty
content — present, not omitted, not null. -/
theorem C5_optional_defaults (cfg : Config) (raw : RawForm)
    (req : UploadRequest)
    (hc : raw.context = none) (he : raw.emotion = none)
    (hp : parse_upload_form raw = Except.ok req) :
    ((create_payload cfg req).getKey? "properties").bind
        (Json.getKey? · "Context") =
      some (Json.obj [("rich_text", Json.arr [
        Json.obj [("text", Json.obj [("content", Json.str "")])]])]) ∧
    ((create_payload cfg req).getKey? "properties").bind
        (Json.getKey? · "Emotional_state") =
      some (Json.obj [("rich_text", Json.arr [
        Json.obj [("text", Json.obj [("content", Json.str "")])]])]) := by
  obtain ⟨f, n, d, c, h, e, em⟩ := raw
  dsimp at hc he
  subst hc he
  cases f <;> cases n <;> cases d <;> cases h <;> cases e <;>
    simp [parse_upload_form] at hp
  subst hp
  exact ⟨rfl, rfl⟩

/-- Claim C5 witness: the concrete raw form with `context` and `emotion`
omitted yields a payload with both rich-text properties empty. -/
theorem C5_witness :
    ((create_payload cfgEx reqDefaulted).getKey? "properties").bind
        (Json.getKey? · "Context") =
      some (Json.obj [("rich_text", Json.arr [
        Json.obj [("text", Json.obj [("content", Json.str "")])]])]) ∧
    ((create_payload cfgEx reqDefaulted).getKey? "properties").bind
        (Json.getKey? · "Emotional_state") =
      some (Json.obj [("rich_text", Json.arr [
        Json.obj [("text", Json.obj [("content", Json.str "")])]])]) :=
  C5_optional_defaults cfgEx rawEx reqDefaulted rfl rfl rfl

/-- Claim C6, counterexample to the claim as stated: a request whose
binary declares the empty string as its media type — a declared value —
yet both the slot payload and the file part carry
`application/octet-stream`, not the declared value, because the source
tests Python truthiness (`content_type or ...`), not presence. -/
theorem C6_counterexample :
    reqEmptyCt.file.content_type = some "" ∧
    (((upload_photo cfgEx reqEmptyCt respsOk).2[1]?.bind HttpCall.body).bind
        (Json.getKey? · "content_type")) =
      some (Json.str "application/octet-stream") ∧
    ((upload_photo cfgEx reqEmptyCt respsOk).2[2]?.map HttpCall.filePart) =
      some (some (some "photo.jpg", [255, 216, 255],
        "application/octet-stream")) ∧
    ("application/octet-stream" : String) ≠ "" :=
  ⟨rfl, rfl, rfl, by decide⟩

/-- Claim C6 (amended): the upload-slot payload's media type, and the
media type of the multipart file part of the binary send, are
`application/octet-stream` when the binary declares no media type or
declares an empty one (Python truthiness treats both as unspecified),
and the declared value whenever a non-empty media type is declared. -/
theorem C6_media_type_default (cfg : Config) (req : UploadRequest)
    (r : UpstreamResponses) (pid fid upl : Json)
    (h1 : is2xx r.page = true)
    (hpid : r.page.json.pyGet "id" = Except.ok pid)
    (h2 : is2xx r.uploadMeta = true)
    (hfid : r.uploadMeta.json.subscript "id" = Except.ok fid)
    (hurl : r.uploadMeta.json.subscript "upload_url" = Except.ok upl) :
    (req.file.content_type = none →
      (((upload_photo cfg req r).2[1]?.bind HttpCall.body).bind
          (Json.getKey? · "content_type")) =
        some (Json.str "application/octet-stream") ∧
      ((upload_photo cfg req r).2[2]?.map HttpCall.filePart) =
        some (some (req.file.filename, req.file.content,
          "application/octet-stream"))) ∧
    (req.file.content_type = some "" →
      (((upload_photo cfg req r).2[1]?.bind HttpCall.body).bind
          (Json.getKey? · "content_type")) =
        some (Json.str "application/octet-stream") ∧
      ((upload_photo cfg req r).2[2]?.map HttpCall.filePart) =
        some (some (req.file.filename, req.file.content,
          "application/octet-stream"))) ∧
    (∀ ct : String, req.file.content_type = some ct → ct ≠ "" →
      (((upload_photo cfg req r).2[1]?.bind HttpCall.body).bind
          (Json.getKey? · "content_type")) = some (Json.str ct) ∧
      ((upload_photo cfg req r).2[2]?.map HttpCall.filePart) =
        some (some (req.file.filename, req.file.content, ct))) := by
  obtain ⟨hm, hs⟩ :=
    upload_photo_trace_three cfg req r pid fid upl h1 hpid h2 hfid hurl
  refine ⟨fun hct => ?_, fun hct => ?_, fun ct hct hne => ?_⟩
  · rw [hm, hs]
    simp [upload_meta_call, upload_meta_payload, send_call, Json.getKey?,
      pyOrStr, hct] <;> rfl
  · rw [hm, hs]
    simp [upload_meta_call, upload_meta_payload, send_call, Json.getKey?,
      pyOrStr, hct] <;> rfl
  · rw [hm, hs]
    simp [upload_meta_call, upload_meta_payload, send_call, Json.getKey?,
      pyOrStr, hct, hne] <;> rfl

/-- Claim C6 witness: the concrete request with no declared media type
produces slot payload and file part with `application/octet-stream`. -/
theorem C6_witness :
    (((upload_photo cfgEx reqNoCt respsOk).2[1]?.bind HttpCall.body).bind
        (Json.getKey? · "content_type")) =
      some (Json.str "application/octet-stream") ∧
    ((upload_photo cfgEx reqNoCt respsOk).2[2]?.map HttpCall.filePart) =
      some (some (reqNoCt.file.filename, reqNoCt.file.content,
        "application/octet-stream")) :=
  (C6_media_type_default cfgEx reqNoCt respsOk (Json.str "page-1")
    (Json.str "fu-1")
    (Json.str "https://api.notion.com/v1/file_uploads/fu-1/send")
    rfl rfl rfl rfl rfl).1 rfl

/-- Claim C7: the binary-send call posts the full photo bytes as a
multipart file part to the URL obtained from the slot-creation response,
with exactly the authentication and API-version headers — no JSON body
and no manually fixed content-type or boundary header. -/
theorem C7_binary_send (cfg : Config) (req : UploadRequest)
    (r : UpstreamResponses) (pid fid : Json) (u : String)
    (h1 : is2xx r.page = true)
    (hpid : r.page.json.pyGet "id" = Except.ok pid)
    (h2 : is2xx r.uploadMeta = true)
    (hfid : r.uploadMeta.json.subscript "id" = Except.ok fid)
    (hurl : r.uploadMeta.json.subscript "upload_url" = Except.ok (Json.str u)) :
    (upload_photo cfg req r).2[2]? = some
      { method := "POST"
        url := u
        headers := [("Authorization", "Bearer " ++ cfg.token),
                    ("Notion-Version", cfg.version)]
        body := none
        filePart := some (req.file.filename, req.file.content,
                          pyOrStr req.file.content_type "application/octet-stream")
        timeout := 30 } := by
  rw [(upload_photo_trace_three cfg req r pid fid (Json.str u)
        h1 hpid h2 hfid hurl).2]
  simp [send_call, notion_headers, pythonStr]

/-- Claim C7 witness: the concrete success scenario sends the JPEG bytes
to the slot URL with only the two base headers. -/
theorem C7_witness :
    (upload_photo cfgEx reqEx respsOk).2[2]? = some
      { method := "POST"
        url := "https://api.notion.com/v1/file_uploads/fu-1/send"
        headers := [("Authorization", "Bearer " ++ "tok"),
                    ("Notion-Version", "2022-06-28")]
        body := none
        filePart := some (some "photo.jpg", [255, 216, 255], "image/jpeg")
        timeout := 30 } :=
  C7_binary_send cfgEx reqEx respsOk (Json.str "page-1") (Json.str "fu-1")
    "https://api.notion.com/v1/file_uploads/fu-1/send" rfl rfl rfl rfl rfl

/-- Shared helper: a falsy token makes startup fail. -/
theorem startup_error_of_token_falsy (token databaseId version : Option String)
    (h : strFalsy token = true) :
    ∃ e, startup token databaseId version = Except.error e := by
  unfold startup
  rw [if_pos h]
  exact ⟨_, rfl⟩

/-- Shared helper: a falsy database identifier makes startup fail. -/
theorem startup_error_of_db_falsy (token databaseId version : Option String)
    (h : strFalsy databaseId = true) :
    ∃ e, startup token databaseId version = Except.error e := by
  unfold startup
  by_cases ht : strFalsy token = true
  · rw [if_pos ht]; exact ⟨_, rfl⟩
  · rw [if_neg ht, if_pos h]; exact ⟨_, rfl⟩

/-- Claim C8: startup fails when the token or the database identifier is
missing or empty, and when the API version variable is unset (with both
required variables present and non-empty) startup proceeds with the
fixed default version 2022-06-28. -/
theorem C8_startup (token databaseId version : Option String) :
    (token = none ∨ token = some "" →
      ∃ e, startup token databaseId version = Except.error e) ∧
    (databaseId = none ∨ databaseId = some "" →
      ∃ e, startup token databaseId version = Except.error e) ∧
    (∀ t d : String, t ≠ "" → d ≠ "" →
      startup (some t) (some d) none = Except.ok ⟨t, d, "2022-06-28"⟩) := by
  refine ⟨fun h => startup_error_of_token_falsy _ _ _ ?_,
          fun h => startup_error_of_db_falsy _ _ _ ?_,
          fun t d ht hd => ?_⟩
  · rcases h with h | h <;> subst h <;> rfl
  · rcases h with h | h <;> subst h <;> rfl
  · simp [startup, strFalsy, ht, hd, Option.getD]

/-- Claim C8 witness: a missing token aborts startup; with both required
variables set and the version unset, startup succeeds with the default
version. -/
theorem C8_witness :
    (∃ e, startup none (some "db1") none = Except.error e) ∧
    startup (some "tok") (some "db1") none =
      Except.ok ⟨"tok", "db1", "2022-06-28"⟩ :=
  ⟨(C8_startup none (some "db1") none).1 (Or.inl rfl),
   (C8_startup (some "tok") (some "db1") none).2.2 "tok" "db1"
     (by decide) (by decide)⟩

/-- Claim C9: when the upload-slot call returns 2xx but its JSON-object
body lacks the "id" or the "upload_url" key, the handler stops with an
unhandled key-lookup error for that key — a `KeyError`, not the
structured stage error that carries an upstream status and body.  (On a
non-object slot body the subscript raises `TypeError` instead, and a
non-object page body crashes at line 183 before the slot call; both
sit outside this claim's hypotheses.) -/
theorem C9_unguarded_slot_keys (cfg : Config) (req : UploadRequest)
    (r : UpstreamResponses) (pid : Json)
    (h1 : is2xx r.page = true)
    (hpid : r.page.json.pyGet "id" = Except.ok pid)
    (h2 : is2xx r.uploadMeta = true) :
    (∀ fields : List (String × Json), r.uploadMeta.json = Json.obj fields →
      fields.lookup "id" = none →
      upload_photo cfg req r =
        (Except.error (Failure.keyError "id"),
         [page_call cfg req, upload_meta_call cfg req])) ∧
    (∀ fields : List (String × Json), ∀ fid : Json,
      r.uploadMeta.json = Json.obj fields →
      fields.lookup "id" = some fid →
      fields.lookup "upload_url" = none →
      upload_photo cfg req r =
        (Except.error (Failure.keyError "upload_url"),
         [page_call cfg req, upload_meta_call cfg req])) ∧
    (∀ k : String, ∀ s : Nat, ∀ d : String,
      (Failure.keyError k : Failure) ≠ Failure.http s d) := by
  refine ⟨fun fields hb hmiss => ?_, fun fields fid hb hfid hmiss => ?_,
          fun k s d h => ?_⟩
  · simp [upload_photo, h1, hpid, h2, hb, Json.subscript, hmiss]
  · simp [upload_photo, h1, hpid, h2, hb, Json.subscript, hfid, hmiss]
  · exact Failure.noConfusion h

/-- Claim C9 witness: a 2xx slot response whose body has only
"upload_url" makes the handler stop with a KeyError for "id" after two
calls. -/
theorem C9_witness :
    upload_photo cfgEx reqEx respsMetaNoId =
      (Except.error (Failure.keyError "id"),
       [page_call cfgEx reqEx, upload_meta_call cfgEx reqEx]) :=
  (C9_unguarded_slot_keys cfgEx reqEx respsMetaNoId (Json.str "page-1")
    rfl rfl rfl).1 [("upload_url", Json.str "u")] rfl rfl

/-- Claim C10: when the page-creation response is 2xx with a JSON-object
body lacking "id", the handler proceeds through the remaining three
calls with a null page identifier (the attach call goes to the
interpolated null URL) and, when they succeed, returns an object whose
identifier field is null.  (A non-object 2xx page body instead raises
`AttributeError` at line 183, outside this claim's hypotheses.) -/
theorem C10_null_page_id (cfg : Config) (req : UploadRequest)
    (r : UpstreamResponses) (pfields : List (String × Json)) (fid upl : Json)
    (h1 : is2xx r.page = true)
    (hb : r.page.json = Json.obj pfields)
    (hid : pfields.lookup "id" = none)
    (h2 : is2xx r.uploadMeta = true)
    (hfid : r.uploadMeta.json.subscript "id" = Except.ok fid)
    (hurl : r.uploadMeta.json.subscript "upload_url" = Except.ok upl)
    (h3 : is2xx r.send = true) (h4 : is2xx r.attach = true) :
    upload_photo cfg req r =
      (Except.ok (Json.obj [("page_id", Json.null)]),
       [page_call cfg req, upload_meta_call cfg req, send_call cfg req upl,
        attach_call cfg Json.null fid]) := by
  simp [upload_photo, h1, hb, Json.pyGet, hid, h2, hfid, hurl, h3, h4]

/-- Claim C10 witness: the concrete run whose page body lacks "id"
issues all four calls — the attach call against the null-interpolated
URL — and returns a null identifier field. -/
theorem C10_witness :
    upload_photo cfgEx reqEx respsNoId =
      (Except.ok (Json.obj [("page_id", Json.null)]),
       [page_call cfgEx reqEx, upload_meta_call cfgEx reqEx,
        send_call cfgEx reqEx
          (Json.str "https://api.notion.com/v1/file_uploads/fu-1/send"),
        attach_call cfgEx Json.null (Json.str "fu-1")]) :=
  C10_null_page_id cfgEx reqEx respsNoId [] (Json.str "fu-1")
    (Json.str "https://api.notion.com/v1/file_uploads/fu-1/send")
    rfl rfl rfl rfl rfl rfl rfl rfl
